import Mathlib

/-!
Shallow embedding of `src/createRapierPhysics.ts` (and of the two type
declaration revisions concatenated in `package/createRapierPhysics.d.ts`).

Conventions of the embedding:
* JavaScript numbers are modelled as `Int` (enum tags as `Nat`);
* engine objects (rigid bodies, colliders, event queues) are identified by
  `Nat` handles handed out by a counter in the world;
* values that may be `undefined` are modelled as `Option`;
* reference equality of scene game objects is modelled as equality of their
  `Nat` identities (distinct objects have distinct identities);
* the mutable closure state of the factory is threaded explicitly through a
  `RapierState` record, and the engine calls `world.step` / `queue.free` /
  `gameObject.destroy` are recorded in logs so that theorems can count them.
-/

set_option autoImplicit false

namespace RAPIER

/-- Model of `RAPIER.Vector3` (components as integers). -/
structure Vector3 where
  x : Int
  y : Int
  z : Int
deriving DecidableEq

/-- Model of `RAPIER.Rotation` (a quaternion). -/
structure Rotation where
  x : Int
  y : Int
  z : Int
  w : Int
deriving DecidableEq

/-- The identity quaternion, the default rotation of a fresh body descriptor. -/
def Rotation.identity : Rotation := { x := 0, y := 0, z := 0, w := 1 }

/-- `RAPIER.RigidBodyType.Dynamic` has numeric value 0 in the engine. -/
def RigidBodyType.Dynamic : Nat := 0

/-- `RAPIER.RigidBodyType.Fixed` has numeric value 1. -/
def RigidBodyType.Fixed : Nat := 1

/-- `RAPIER.RigidBodyType.KinematicPositionBased` has numeric value 2. -/
def RigidBodyType.KinematicPositionBased : Nat := 2

/-- `RAPIER.RigidBodyType.KinematicVelocityBased` has numeric value 3. -/
def RigidBodyType.KinematicVelocityBased : Nat := 3

/-- Model of `RAPIER.RigidBodyDesc`: the body type tag, the initial
translation and rotation, the user data slot, and a `payload` that stands
for every further user-customisable property of a descriptor (mass,
damping, ...), which this adapter never touches. -/
structure RigidBodyDesc where
  bodyType : Nat
  translation : Vector3 := { x := 0, y := 0, z := 0 }
  rotation : Rotation := Rotation.identity
  userData : Option Nat := none
  payload : Nat := 0
deriving DecidableEq

/-- `RAPIER.RigidBodyDesc.dynamic()`. -/
def RigidBodyDesc.dynamic : RigidBodyDesc := { bodyType := RigidBodyType.Dynamic }

/-- `RAPIER.RigidBodyDesc.fixed()`. -/
def RigidBodyDesc.fixed : RigidBodyDesc := { bodyType := RigidBodyType.Fixed }

/-- `RAPIER.RigidBodyDesc.kinematicPositionBased()`. -/
def RigidBodyDesc.kinematicPositionBased : RigidBodyDesc :=
  { bodyType := RigidBodyType.KinematicPositionBased }

/-- `RAPIER.RigidBodyDesc.kinematicVelocityBased()`. -/
def RigidBodyDesc.kinematicVelocityBased : RigidBodyDesc :=
  { bodyType := RigidBodyType.KinematicVelocityBased }

/-- `desc.setUserData(data)` stores the data on the descriptor. -/
def RigidBodyDesc.setUserData (d : RigidBodyDesc) (data : Nat) : RigidBodyDesc :=
  { d with userData := some data }

/-- Model of `RAPIER.ColliderDesc`: an opaque shape description. -/
abbrev ColliderDesc := Nat

/-- Model of a `RAPIER.RigidBody` living in a world: its handle plus the
data it was created from (and its current translation/rotation, which
`setTranslation`/`setRotation` update). -/
structure RigidBody where
  handle : Nat
  bodyType : Nat
  translation : Vector3
  rotation : Rotation
  userData : Option Nat
  payload : Nat
deriving DecidableEq

/-- Model of a `RAPIER.Collider` attached to a parent rigid body. -/
structure Collider where
  handle : Nat
  desc : ColliderDesc
  parent : Nat
deriving DecidableEq

/-- Model of a `RAPIER.EventQueue`; `new RAPIER.EventQueue(true)` enables
automatic draining of internal events. -/
structure EventQueue where
  id : Nat
  autoDrainEnabled : Bool
deriving DecidableEq

/-- Model of a `RAPIER.World`: the gravity it was created with, a counter
for fresh handles, the rigid bodies and colliders it currently holds, a log
of its `step` calls (each entry records the event queue handle passed, if
any), and whether `world.free()` has been called. -/
structure World where
  gravity : Vector3
  nextId : Nat := 0
  rigidBodiesList : List RigidBody := []
  collidersList : List Collider := []
  stepLog : List (Option Nat) := []
  freed : Bool := false
deriving DecidableEq

/-- `world.createRigidBody(desc)`: creates one fresh rigid body from the
descriptor and returns it together with the updated world. -/
def World.createRigidBody (w : World) (desc : RigidBodyDesc) : RigidBody × World :=
  let rb : RigidBody :=
    { handle := w.nextId, bodyType := desc.bodyType, translation := desc.translation,
      rotation := desc.rotation, userData := desc.userData, payload := desc.payload }
  (rb, { w with nextId := w.nextId + 1, rigidBodiesList := rb :: w.rigidBodiesList })

/-- `world.createCollider(desc, parent)`: creates one fresh collider
attached to the parent rigid body. -/
def World.createCollider (w : World) (desc : ColliderDesc) (parentHandle : Nat) :
    Collider × World :=
  let c : Collider := { handle := w.nextId, desc := desc, parent := parentHandle }
  (c, { w with nextId := w.nextId + 1, collidersList := c :: w.collidersList })

/-- `world.removeRigidBody(body)`: removes the body and (as the engine
does) the colliders attached to it. -/
def World.removeRigidBody (w : World) (handle : Nat) : World :=
  { w with
    rigidBodiesList := w.rigidBodiesList.filter (fun rb => rb.handle != handle),
    collidersList := w.collidersList.filter (fun c => c.parent != handle) }

/-- `body.setTranslation(t, wakeUp)`: updates the translation of the body
with this handle (the sleep state is not modelled). -/
def World.setTranslation (w : World) (handle : Nat) (t : Vector3) (_wakeUp : Bool) : World :=
  let upd := fun rb => if rb.handle = handle then { rb with translation := t } else rb
  { w with rigidBodiesList := w.rigidBodiesList.map upd }

/-- `body.setRotation(r, wakeUp)`: updates the rotation of the body with
this handle. -/
def World.setRotation (w : World) (handle : Nat) (r : Rotation) (_wakeUp : Bool) : World :=
  let upd := fun rb => if rb.handle = handle then { rb with rotation := r } else rb
  { w with rigidBodiesList := w.rigidBodiesList.map upd }

/-- `world.step()` / `world.step(eventQueue)`: advances the simulation by
one step; the log records which event queue (if any) each step used. -/
def World.step (w : World) (eventQueue : Option Nat := none) : World :=
  { w with stepLog := w.stepLog ++ [eventQueue] }

/-- Looks a rigid body up by handle. -/
def World.getBody (w : World) (handle : Nat) : Option RigidBody :=
  w.rigidBodiesList.find? (fun rb => rb.handle == handle)

end RAPIER

open RAPIER

/-- `TRidgiBodyObject` of the source: the triple the registry stores (the
engine objects are represented by their handles). -/
structure TRidgiBodyObject where
  rigidBody : Nat
  collider : Nat
  gameObject : Nat
deriving DecidableEq

/-- `TPhysicsObject` of the source: structurally identical to
`TRidgiBodyObject` (TypeScript is structurally typed, so they are the same
type). -/
abbrev TPhysicsObject := TRidgiBodyObject

/-- The union `RAPIER.RigidBodyType | RAPIER.RigidBodyDesc` of the helper
config: `num` is the `typeof rigidBodyDesc === "number"` case. -/
inductive RigidBodyDescOrType where
  | num (t : Nat)
  | desc (d : RigidBodyDesc)
deriving DecidableEq

/-- `TAddRigidBodyConfig` of the source. -/
structure TAddRigidBodyConfig where
  world : World
  gameObject : Nat
  rigidBodyDesc : RigidBodyDescOrType
  colliderDesc : ColliderDesc

/-- The descriptor selection of the module-level `addRigidBody` helper:
numbers go through the `switch` over the four known `RigidBodyType` values
(with a `default` branch creating a dynamic descriptor), and a descriptor
argument is used as-is. -/
def resolveRigidBodyDesc : RigidBodyDescOrType → RigidBodyDesc
  | RigidBodyDescOrType.num t =>
      if t = RigidBodyType.Dynamic then RigidBodyDesc.dynamic
      else if t = RigidBodyType.Fixed then RigidBodyDesc.fixed
      else if t = RigidBodyType.KinematicPositionBased then
        RigidBodyDesc.kinematicPositionBased
      else if t = RigidBodyType.KinematicVelocityBased then
        RigidBodyDesc.kinematicVelocityBased
      else RigidBodyDesc.dynamic
  | RigidBodyDescOrType.desc d => d

/-- The module-level `addRigidBody` helper: selects the descriptor, stores
the game object as user data, creates the rigid body and its collider, and
returns the `{rigidBody, collider, gameObject}` triple (with the updated
world, which the closure mutates in place in the source). Renamed from
`addRigidBody` because the factory method below keeps that name. -/
def addRigidBodyFromConfig (config : TAddRigidBodyConfig) : TRidgiBodyObject × World :=
  let d := (resolveRigidBodyDesc config.rigidBodyDesc).setUserData config.gameObject
  let created := config.world.createRigidBody d
  let colliderCreated := created.2.createCollider config.colliderDesc created.1.handle
  ({ rigidBody := created.1.handle, collider := colliderCreated.1.handle,
     gameObject := config.gameObject },
   colliderCreated.2)

/-- `TRapierOptions` of the source (runtime view): optional fields model
fields that may be absent/`undefined`. -/
structure TRapierOptions where
  rigidBodyType : Option Nat := none
  rigidBodyDesc : Option RigidBodyDesc := none
  collider : ColliderDesc
  translation : Option Vector3 := none
  rotation : Option Rotation := none
deriving DecidableEq

/-- The JavaScript truthiness chain
`rapierOptions?.rigidBodyType || rapierOptions?.rigidBodyDesc ||
RAPIER.RigidBodyType.Dynamic`: an absent or zero (falsy) number falls
through to the descriptor; an object is always truthy; the final fallback
is the numeric value of `Dynamic`, which is 0. -/
def jsRigidBodyDescArg : Option Nat → Option RigidBodyDesc → RigidBodyDescOrType
  | some t, od =>
      if t ≠ 0 then RigidBodyDescOrType.num t
      else
        match od with
        | some d => RigidBodyDescOrType.desc d
        | none => RigidBodyDescOrType.num RigidBodyType.Dynamic
  | none, some d => RigidBodyDescOrType.desc d
  | none, none => RigidBodyDescOrType.num RigidBodyType.Dynamic

/-- The optional `debugRenderSettings` argument of `createRapierPhysics`
(all fields optional). -/
structure DebugRenderSettings where
  xShear : Option Int := none
  xScale : Option Int := none
  yScale : Option Int := none
  zScale : Option Int := none
deriving DecidableEq

/-- The mutable closure state of the `createRapierPhysics` factory: the
world, the `bodies` registry, the `debugEnabled` flag, the `eventQueue`
slot (a `let` variable of the closure), plus model-side logs: a counter for
fresh queue ids, the queues released by `free()`, the game objects whose
`destroy()` method was called, and whether the scene `update` listener is
still attached. -/
structure RapierState where
  world : World
  bodies : List TRidgiBodyObject
  debugEnabled : Bool
  eventQueue : Option EventQueue
  nextQueueId : Nat
  freedQueues : List Nat
  destroyedObjects : List Nat
  updateHooked : Bool
deriving DecidableEq

/-- `createRapierPhysics(gravity, scene, debugRenderSettings?)`: the
initial closure state (the returned method record is modelled by the
`RapierPhysics.*` functions below). -/
def createRapierPhysics (gravity : Vector3) : RapierState :=
  { world := { gravity := gravity }, bodies := [], debugEnabled := false,
    eventQueue := none, nextQueueId := 0, freedQueues := [],
    destroyedObjects := [], updateHooked := true }

/-- `debugRenderSettings?.f ?? d` of the source. -/
def optGetD (settings : Option DebugRenderSettings)
    (f : DebugRenderSettings → Option Int) (d : Int) : Int :=
  match settings with
  | some st => (f st).getD d
  | none => d

/-- `Phaser.Display.Color.GetColor(red, green, blue)`: packs the channels
as `red * 2^16 + green * 2^8 + blue`. -/
def GetColor (red green blue : Int) : Int := red * 65536 + green * 256 + blue

/-- One line segment drawn into the debug graphics: the
`lineStyle(2, color, alpha)` attributes plus the `lineBetween` endpoints. -/
structure DrawnSegment where
  width : Int
  color : Int
  alpha : Int
  x1 : Int
  y1 : Int
  x2 : Int
  y2 : Int
deriving DecidableEq

/-- One iteration of the debug-render loop, reading the group of six
vertex floats starting at index `i` and the four colour floats starting at
`colorIndex = i * 2`, exactly as the source indexes the flat buffers
(an out-of-range read yields the default 0 in the model). -/
def segmentAt (settings : Option DebugRenderSettings) (vertices colors : List Int)
    (i : Nat) : DrawnSegment :=
  let x1 := vertices.getD i 0
  let y1 := vertices.getD (i + 1) 0
  let z1 := vertices.getD (i + 2) 0
  let x2 := vertices.getD (i + 3) 0
  let y2 := vertices.getD (i + 4) 0
  let z2 := vertices.getD (i + 5) 0
  let colorIndex := i * 2
  let r := colors.getD colorIndex 0
  let g := colors.getD (colorIndex + 1) 0
  let b := colors.getD (colorIndex + 2) 0
  let a := colors.getD (colorIndex + 3) 0
  let xShear := optGetD settings DebugRenderSettings.xShear 0
  let xScale := optGetD settings DebugRenderSettings.xScale 1
  let yScale := optGetD settings DebugRenderSettings.yScale 1
  let zScale := optGetD settings DebugRenderSettings.zScale 1
  { width := 2,
    color := GetColor (r * 255) (g * 255) (b * 255),
    alpha := a,
    x1 := x1 * xScale + y1 * xShear,
    y1 := y1 * yScale - x1 * xShear - zScale * z1,
    x2 := x2 * xScale + y2 * xShear,
    y2 := y2 * yScale - x2 * xShear - zScale * z2 }

/-- The `for (let i = 0; i < vertices.length; i += 6)` loop of the source:
one segment per started group of six floats. -/
def drawDebug (settings : Option DebugRenderSettings) (vertices colors : List Int) :
    List DrawnSegment :=
  (List.range ((vertices.length + 5) / 6)).map
    (fun k => segmentAt settings vertices colors (6 * k))

/-- The flat buffers `world.debugRender()` returns; the engine produces
them, so `update` takes them as an input of the model. -/
structure DebugRenderBuffers where
  vertices : List Int
  colors : List Int

/-- The observable outcome of one `update` call: the new closure state,
the queue whose collision events were drained (if any), and the debug
segments drawn this frame. -/
structure UpdateResult where
  state : RapierState
  drained : Option Nat
  drawn : List DrawnSegment

/-- The per-frame `update` callback: steps the world with the event queue
when one exists (then drains its collision events), otherwise steps it
plainly; when the debug flag is set it clears the debug graphics and draws
the remapped segments of the engine's debug-render buffers. -/
def update (settings : Option DebugRenderSettings) (buffers : DebugRenderBuffers)
    (s : RapierState) : UpdateResult :=
  match s.eventQueue with
  | some q =>
      { state := { s with world := s.world.step (some q.id) },
        drained := some q.id,
        drawn := if s.debugEnabled then
            drawDebug settings buffers.vertices buffers.colors
          else [] }
  | none =>
      { state := { s with world := s.world.step none },
        drained := none,
        drawn := if s.debugEnabled then
            drawDebug settings buffers.vertices buffers.colors
          else [] }

/-- The returned `getWorld` method. -/
def RapierPhysics.getWorld (s : RapierState) : World := s.world

/-- The returned `addRigidBody` method: feeds the truthiness-selected
descriptor argument and the collider into the module-level helper, then
applies `setTranslation`/`setRotation` when the options carry a
translation/rotation, unshifts the triple onto the registry, and returns
the triple. -/
def RapierPhysics.addRigidBody (s : RapierState) (gameObject : Nat)
    (rapierOptions : TRapierOptions) : TPhysicsObject × RapierState :=
  let arg := jsRigidBodyDescArg rapierOptions.rigidBodyType rapierOptions.rigidBodyDesc
  let config : TAddRigidBodyConfig :=
    { world := s.world, gameObject := gameObject, rigidBodyDesc := arg,
      colliderDesc := rapierOptions.collider }
  let r := addRigidBodyFromConfig config
  let w1 := match rapierOptions.translation with
    | some t => r.2.setTranslation r.1.rigidBody t false
    | none => r.2
  let w2 := match rapierOptions.rotation with
    | some rot => w1.setRotation r.1.rigidBody rot false
    | none => w1
  ({ collider := r.1.collider, rigidBody := r.1.rigidBody, gameObject := r.1.gameObject },
   { s with world := w2, bodies := r.1 :: s.bodies })

/-- The returned `debugger` method (the graphics clearing on disable only
touches the drawing surface, which carries no modelled state). -/
def RapierPhysics.debugger (s : RapierState) (enable : Bool := true) : RapierState :=
  { s with debugEnabled := enable }

/-- The returned `destroy` method: finds the first registry entry whose
game object is reference-equal to the argument; when found (the
`body?.rigidBody !== undefined` test, which in the model is exactly
"found", since every entry's `rigidBody` field is defined) it removes the
rigid body from the world, destroys the game object, and splices the entry
out of the registry at `bodies.indexOf(body)` (the JavaScript
`index > -1` test is `index < bodies.length` for the model's `indexOf`,
which returns the length when the element is absent). -/
def RapierPhysics.destroy (s : RapierState) (gameObject : Nat) : RapierState :=
  match s.bodies.find? (fun b => b.gameObject == gameObject) with
  | some body =>
      let w := s.world.removeRigidBody body.rigidBody
      let destroyed := s.destroyedObjects ++ [body.gameObject]
      let index := s.bodies.indexOf body
      let bodies := if index < s.bodies.length then s.bodies.eraseIdx index else s.bodies
      { s with world := w, destroyedObjects := destroyed, bodies := bodies }
  | none => s

/-- The returned `createEventQueue` method: allocates a fresh auto-drain
event queue, installs it in the closure's `eventQueue` slot, and returns
it (its `free` closure is modelled by `RapierPhysics.eventQueueFree`). -/
def RapierPhysics.createEventQueue (s : RapierState) : EventQueue × RapierState :=
  let q : EventQueue := { id := s.nextQueueId, autoDrainEnabled := true }
  (q, { s with eventQueue := some q, nextQueueId := s.nextQueueId + 1 })

/-- The `free` closure returned by `createEventQueue`: when the closure's
`eventQueue` slot holds a queue it frees it and clears the slot, otherwise
it does nothing. -/
def RapierPhysics.eventQueueFree (s : RapierState) : RapierState :=
  match s.eventQueue with
  | some q => { s with freedQueues := s.freedQueues ++ [q.id], eventQueue := none }
  | none => s

/-- The returned `free` method: frees the world and removes the scene
`update` listener. -/
def RapierPhysics.free (s : RapierState) : RapierState :=
  { s with world := { s.world with freed := true }, updateHooked := false }

/-- Well-formed world: every rigid body handle is below the fresh-handle
counter (true of every world the engine builds, since handles come from
the counter). -/
abbrev WorldWF (w : World) : Prop :=
  ∀ rb ∈ w.rigidBodiesList, rb.handle < w.nextId

/-- Specification-side description of the rigid body `addRigidBody` ends up
with: created from the truthiness-selected descriptor carrying the game
object as user data, at the next fresh handle, with the optional
translation/rotation applied when supplied and the descriptor's own values
kept otherwise. -/
def addRigidBodySpecBody (s : RapierState) (gameObject : Nat)
    (rapierOptions : TRapierOptions) : RigidBody :=
  let sel := (resolveRigidBodyDesc (jsRigidBodyDescArg rapierOptions.rigidBodyType
    rapierOptions.rigidBodyDesc)).setUserData gameObject
  { handle := s.world.nextId, bodyType := sel.bodyType,
    translation := rapierOptions.translation.getD sel.translation,
    rotation := rapierOptions.rotation.getD sel.rotation,
    userData := sel.userData, payload := sel.payload }

/-- Specification-side removal of the first registry entry whose game
object is reference-equal to the argument (the list is unchanged when no
entry matches). -/
def removeFirstByGameObject : List TRidgiBodyObject → Nat → List TRidgiBodyObject
  | [], _ => []
  | b :: bs, g => if b.gameObject = g then bs else b :: removeFirstByGameObject bs g

/-- Specification-side screen x-coordinate of the debug remap: the
physics x scaled by `xScale` plus the physics y sheared by `xShear`. -/
def debugRemapX (settings : Option DebugRenderSettings) (v : Vector3) : Int :=
  v.x * optGetD settings DebugRenderSettings.xScale 1 +
    v.y * optGetD settings DebugRenderSettings.xShear 0

/-- Specification-side screen y-coordinate of the debug remap: the
physics y scaled by `yScale`, minus the physics x sheared by `xShear`,
minus the physics z scaled by `zScale`. -/
def debugRemapY (settings : Option DebugRenderSettings) (v : Vector3) : Int :=
  v.y * optGetD settings DebugRenderSettings.yScale 1 -
    v.x * optGetD settings DebugRenderSettings.xShear 0 -
    optGetD settings DebugRenderSettings.zScale 1 * v.z

/-!
Model of the public type declarations, for comparing the implementation
(`src/createRapierPhysics.ts`) with the two declaration revisions
concatenated in `package/createRapierPhysics.d.ts`.
-/

/-- The TypeScript types that occur in the public declarations. -/
inductive TsType where
  | numberT
  | booleanT
  | voidT
  | rigidBodyTypeT
  | rigidBodyDescT
  | colliderDescT
  | vector3T
  | rotationT
  | rigidBodyT
  | colliderT
  | gameObjectT
  | worldT
  | physicsObjectT
  | eventQueueHandleT
deriving DecidableEq

/-- One declared object-type member: its name, whether it is optional
(`name?:`), and its type. -/
structure TsField where
  name : String
  optional : Bool
  type : TsType
deriving DecidableEq

/-- `TPhysicsObject` as declared in `src/createRapierPhysics.ts`. -/
def srcTPhysicsObjectFields : List TsField :=
  [ { name := "rigidBody", optional := false, type := TsType.rigidBodyT },
    { name := "collider", optional := false, type := TsType.colliderT },
    { name := "gameObject", optional := false, type := TsType.gameObjectT } ]

/-- `TPhysicsObject` as declared in the first revision of the typings. -/
def dts1TPhysicsObjectFields : List TsField :=
  [ { name := "rigidBody", optional := false, type := TsType.rigidBodyT },
    { name := "collider", optional := false, type := TsType.colliderT },
    { name := "gameObject", optional := false, type := TsType.gameObjectT } ]

/-- `TPhysicsObject` as declared in the second revision of the typings. -/
def dts2TPhysicsObjectFields : List TsField :=
  [ { name := "rigidBody", optional := false, type := TsType.rigidBodyT },
    { name := "collider", optional := false, type := TsType.colliderT },
    { name := "gameObject", optional := false, type := TsType.gameObjectT } ]

/-- `TRapierOptions` as declared in `src/createRapierPhysics.ts`. -/
def srcTRapierOptionsFields : List TsField :=
  [ { name := "rigidBodyType", optional := true, type := TsType.rigidBodyTypeT },
    { name := "rigidBodyDesc", optional := true, type := TsType.rigidBodyDescT },
    { name := "collider", optional := false, type := TsType.colliderDescT },
    { name := "translation", optional := true, type := TsType.vector3T },
    { name := "rotation", optional := true, type := TsType.rotationT } ]

/-- `TRapierOptions` as declared in the first revision of the typings
(lines 8-22 of `package/createRapierPhysics.d.ts`). -/
def dts1TRapierOptionsFields : List TsField :=
  [ { name := "rigidBodyType", optional := true, type := TsType.rigidBodyTypeT },
    { name := "rigidBodyDesc", optional := true, type := TsType.rigidBodyDescT },
    { name := "collider", optional := false, type := TsType.colliderDescT },
    { name := "translation", optional := true, type := TsType.vector3T },
    { name := "rotation", optional := true, type := TsType.rotationT } ]

/-- `TRapierOptions` as declared in the second revision of the typings
(lines 58-69 of `package/createRapierPhysics.d.ts`): `rigidBodyType` is
required, there is no `rigidBodyDesc`/`translation`/`rotation`, and there
is a `phaserTransformations` flag instead. -/
def dts2TRapierOptionsFields : List TsField :=
  [ { name := "rigidBodyType", optional := false, type := TsType.rigidBodyTypeT },
    { name := "collider", optional := false, type := TsType.colliderDescT },
    { name := "phaserTransformations", optional := true, type := TsType.booleanT } ]

/-- The result types as read off `src/createRapierPhysics.ts` lines
82-95. -/
def srcRapierPhysicsResults : List (String × TsType) :=
  [ ("getWorld", TsType.worldT),
    ("addRigidBody", TsType.physicsObjectT),
    ("debugger", TsType.voidT),
    ("destroy", TsType.voidT),
    ("createEventQueue", TsType.eventQueueHandleT),
    ("free", TsType.voidT) ]

/-- The result types as read off the first typings revision (lines
23-33). -/
def dts1RapierPhysicsResults : List (String × TsType) :=
  [ ("getWorld", TsType.worldT),
    ("addRigidBody", TsType.physicsObjectT),
    ("debugger", TsType.voidT),
    ("destroy", TsType.voidT),
    ("createEventQueue", TsType.eventQueueHandleT),
    ("free", TsType.voidT) ]

/-- The result types as read off the second typings revision (lines
70-80). -/
def dts2RapierPhysicsResults : List (String × TsType) :=
  [ ("getWorld", TsType.worldT),
    ("addRigidBody", TsType.physicsObjectT),
    ("debugger", TsType.voidT),
    ("destroy", TsType.voidT),
    ("createEventQueue", TsType.eventQueueHandleT),
    ("free", TsType.voidT) ]

/-- The optional `debugRenderSettings` parameter of `createRapierPhysics`
in `src/createRapierPhysics.ts` lines 106-111 (`none` means the revision
declares no such parameter). -/
def srcDebugRenderSettingsParam : Option (List TsField) :=
  some
    [ { name := "xShear", optional := true, type := TsType.numberT },
      { name := "xScale", optional := true, type := TsType.numberT },
      { name := "yScale", optional := true, type := TsType.numberT },
      { name := "zScale", optional := true, type := TsType.numberT } ]

/-- The `debugRenderSettings` parameter declared by the first typings
revision (lines 44-48): it lacks `xShear`. -/
def dts1DebugRenderSettingsParam : Option (List TsField) :=
  some
    [ { name := "xScale", optional := true, type := TsType.numberT },
      { name := "yScale", optional := true, type := TsType.numberT },
      { name := "zScale", optional := true, type := TsType.numberT } ]

/-- The second typings revision (lines 87-91) declares `createRapierPhysics`
with no `debugRenderSettings` parameter at all. -/
def dts2DebugRenderSettingsParam : Option (List TsField) := none

/-! Concrete example states used to instantiate the theorems below. -/

/-- A fresh factory state with gravity `(0, 0, -10)`. -/
def exampleFreshState : RapierState := createRapierPhysics { x := 0, y := 0, z := -10 }

/-- Example options: a collider shape, an initial translation and an
initial rotation. -/
def exampleOpts : TRapierOptions :=
  { collider := 42, translation := some { x := 1, y := 2, z := 3 },
    rotation := some { x := 0, y := 0, z := 1, w := 0 } }

/-- A state in which game object 5 has been registered once. -/
def exampleRegisteredState : RapierState :=
  (RapierPhysics.addRigidBody exampleFreshState 5 { collider := 42 }).2

/-- A state in which game object 7 has been registered twice. -/
def exampleDupState : RapierState :=
  (RapierPhysics.addRigidBody
    (RapierPhysics.addRigidBody (createRapierPhysics { x := 0, y := 0, z := 0 }) 7
      { collider := 1 }).2 7 { collider := 2 }).2

/-- A fresh factory state with the debug renderer enabled. -/
def exampleDebugState : RapierState :=
  RapierPhysics.debugger (createRapierPhysics { x := 0, y := 0, z := 0 }) true

/-- Example debug-render settings with every factor supplied. -/
def exampleSettings : Option DebugRenderSettings :=
  some { xShear := some 2, xScale := some 3, yScale := some 5, zScale := some 7 }

/-- An example debug vertex buffer holding one segment. -/
def exampleVertices : List Int := [1, 2, 3, 4, 5, 6]

/-- An example debug colour buffer for one segment. -/
def exampleColors : List Int := [1, 0, 0, 1, 0, 1, 0, 1]

/-- An example customised rigid-body descriptor. -/
def exampleDesc : RigidBodyDesc := { bodyType := RigidBodyType.Fixed, payload := 9 }

/-! Helper lemmas shared by the claim theorems. -/

theorem gameObject_eq_of_find? {l : List TRidgiBodyObject} {g : Nat} {b : TRidgiBodyObject}
    (h : l.find? (fun x => x.gameObject == g) = some b) : b.gameObject = g := by
  have := List.find?_some h
  simpa using this

theorem mem_of_find?_gameObject {l : List TRidgiBodyObject} {g : Nat} {b : TRidgiBodyObject}
    (h : l.find? (fun x => x.gameObject == g) = some b) : b ∈ l :=
  List.mem_of_find?_eq_some h

theorem erase_eq_removeFirstByGameObject {l : List TRidgiBodyObject} {g : Nat}
    {b : TRidgiBodyObject} (h : l.find? (fun x => x.gameObject == g) = some b) :
    l.erase b = removeFirstByGameObject l g := by
  induction l with
  | nil => simp at h
  | cons x xs ih =>
    by_cases hx : x.gameObject = g
    · rw [List.find?_cons_of_pos _ (by simpa using hx)] at h
      obtain rfl : x = b := by simpa using h
      simp [removeFirstByGameObject, hx]
    · rw [List.find?_cons_of_neg _ (by simpa using hx)] at h
      have hbg : b.gameObject = g := gameObject_eq_of_find? h
      have hxb : ¬(x == b) := by
        simp only [beq_iff_eq]
        rintro rfl
        exact hx hbg
      rw [List.erase_cons_tail hxb]
      simp only [removeFirstByGameObject, if_neg hx]
      rw [ih h]

theorem removeFirstByGameObject_of_no_match {l : List TRidgiBodyObject} {g : Nat}
    (h : ∀ x ∈ l, x.gameObject ≠ g) : removeFirstByGameObject l g = l := by
  induction l with
  | nil => rfl
  | cons x xs ih =>
    simp only [removeFirstByGameObject, if_neg (h x (List.mem_cons_self x xs))]
    rw [ih (fun y hy => h y (List.mem_cons_of_mem x hy))]

theorem removeFirstByGameObject_decomp {l : List TRidgiBodyObject} {g : Nat}
    {b : TRidgiBodyObject} (h : l.find? (fun x => x.gameObject == g) = some b) :
    ∃ l₁ l₂, l = l₁ ++ b :: l₂ ∧ removeFirstByGameObject l g = l₁ ++ l₂ ∧
      ∀ x ∈ l₁, x.gameObject ≠ g := by
  induction l with
  | nil => simp at h
  | cons x xs ih =>
    by_cases hx : x.gameObject = g
    · rw [List.find?_cons_of_pos _ (by simpa using hx)] at h
      obtain rfl : x = b := by simpa using h
      exact ⟨[], xs, by simp, by simp [removeFirstByGameObject, hx], by simp⟩
    · rw [List.find?_cons_of_neg _ (by simpa using hx)] at h
      obtain ⟨l₁, l₂, hdec, hrem, hnone⟩ := ih h
      refine ⟨x :: l₁, l₂, by simp [hdec], ?_, ?_⟩
      · simp only [removeFirstByGameObject, if_neg hx, hrem, List.cons_append]
      · intro y hy
        rcases List.mem_cons.mp hy with rfl | hy'
        · exact hx
        · exact hnone y hy'

theorem removeFirstByGameObject_countP {l : List TRidgiBodyObject} {g : Nat}
    {b : TRidgiBodyObject} (h : l.find? (fun x => x.gameObject == g) = some b) :
    (removeFirstByGameObject l g).countP (fun x => x.gameObject == g) + 1 =
      l.countP (fun x => x.gameObject == g) := by
  obtain ⟨l₁, l₂, hdec, hrem, hnone⟩ := removeFirstByGameObject_decomp h
  have hbg : b.gameObject = g := gameObject_eq_of_find? h
  subst hdec
  rw [hrem]
  simp [List.countP_append, List.countP_cons, hbg]
  omega

theorem destroy_eq_of_find?_some {s : RapierState} {g : Nat} {b : TRidgiBodyObject}
    (h : s.bodies.find? (fun x => x.gameObject == g) = some b) :
    RapierPhysics.destroy s g =
      { s with
        world := s.world.removeRigidBody b.rigidBody,
        destroyedObjects := s.destroyedObjects ++ [b.gameObject],
        bodies := removeFirstByGameObject s.bodies g } := by
  have hmem : b ∈ s.bodies := mem_of_find?_gameObject h
  have hidx : s.bodies.indexOf b < s.bodies.length := List.indexOf_lt_length.mpr hmem
  simp only [RapierPhysics.destroy, h, if_pos hidx, List.eraseIdx_indexOf_eq_erase,
    erase_eq_removeFirstByGameObject h]

theorem destroy_eq_of_find?_none {s : RapierState} {g : Nat}
    (h : s.bodies.find? (fun x => x.gameObject == g) = none) :
    RapierPhysics.destroy s g = s := by
  simp only [RapierPhysics.destroy, h]

theorem getBody_removeRigidBody_of_ne {w : World} {removed other : Nat}
    (h : other ≠ removed) : (w.removeRigidBody removed).getBody other = w.getBody other := by
  simp only [World.removeRigidBody, World.getBody]
  induction w.rigidBodiesList with
  | nil => rfl
  | cons x xs ih =>
    by_cases hx : x.handle = removed
    · rw [List.filter_cons_of_neg (by simp [hx]),
        List.find?_cons_of_neg _ (by simp [hx]; omega), ih]
    · rw [List.filter_cons_of_pos (by simp [hx])]
      by_cases hox : x.handle = other
      · rw [List.find?_cons_of_pos _ (by simp [hox]), List.find?_cons_of_pos _ (by simp [hox])]
      · rw [List.find?_cons_of_neg _ (by simp [hox]),
          List.find?_cons_of_neg _ (by simp [hox]), ih]

theorem map_update_absent (l : List RigidBody) (handle : Nat)
    (g : RigidBody → RigidBody) (h : ∀ rb ∈ l, rb.handle ≠ handle) :
    l.map (fun rb => if rb.handle = handle then g rb else rb) = l := by
  induction l with
  | nil => rfl
  | cons x xs ih =>
    simp only [List.map_cons, if_neg (h x (List.mem_cons_self x xs))]
    rw [ih (fun rb hrb => h rb (List.mem_cons_of_mem x hrb))]

/-! Claim theorems. -/

/-- Claim C1: for every state, game object and options value,
`addRigidBody` creates exactly one new rigid body and one new collider
attached to it in the factory's world, records the
`{rigidBody, collider, gameObject}` triple at the front of the registry,
and returns that triple; the created body carries the supplied translation
and rotation when the options provide them and keeps the descriptor's own
translation/rotation otherwise (so nothing is applied after creation when
neither is supplied). -/
theorem addRigidBody_creates_registers_returns (s : RapierState) (g : Nat)
    (opts : TRapierOptions) (hwf : WorldWF s.world) :
    (RapierPhysics.addRigidBody s g opts).2.world.rigidBodiesList =
        addRigidBodySpecBody s g opts :: s.world.rigidBodiesList
    ∧ (RapierPhysics.addRigidBody s g opts).2.world.collidersList =
        { handle := s.world.nextId + 1, desc := opts.collider,
          parent := s.world.nextId } :: s.world.collidersList
    ∧ (RapierPhysics.addRigidBody s g opts).2.bodies =
        (RapierPhysics.addRigidBody s g opts).1 :: s.bodies
    ∧ (RapierPhysics.addRigidBody s g opts).1 =
        { rigidBody := s.world.nextId, collider := s.world.nextId + 1, gameObject := g } := by
  have hwf' : ∀ rb ∈ s.world.rigidBodiesList, rb.handle ≠ s.world.nextId :=
    fun rb hrb => Nat.ne_of_lt (hwf rb hrb)
  obtain ⟨rbt, rbd, col, tr, rot⟩ := opts
  cases tr with
  | none =>
    cases rot with
    | none =>
      simp [RapierPhysics.addRigidBody, addRigidBodyFromConfig, World.createRigidBody,
        World.createCollider, addRigidBodySpecBody, RigidBodyDesc.setUserData]
    | some rq =>
      simp [RapierPhysics.addRigidBody, addRigidBodyFromConfig, World.createRigidBody,
        World.createCollider, World.setRotation, addRigidBodySpecBody,
        RigidBodyDesc.setUserData, map_update_absent _ _ _ hwf']
  | some t =>
    cases rot with
    | none =>
      simp [RapierPhysics.addRigidBody, addRigidBodyFromConfig, World.createRigidBody,
        World.createCollider, World.setTranslation, addRigidBodySpecBody,
        RigidBodyDesc.setUserData, map_update_absent _ _ _ hwf']
    | some rq =>
      simp [RapierPhysics.addRigidBody, addRigidBodyFromConfig, World.createRigidBody,
        World.createCollider, World.setTranslation, World.setRotation, addRigidBodySpecBody,
        RigidBodyDesc.setUserData, map_update_absent _ _ _ hwf']

/-- Concrete instance of the theorem above, at a fresh state with both a
translation and a rotation supplied. -/
theorem addRigidBody_creates_registers_returns_witness :
    (RapierPhysics.addRigidBody exampleFreshState 5 exampleOpts).2.world.rigidBodiesList =
        addRigidBodySpecBody exampleFreshState 5 exampleOpts ::
          exampleFreshState.world.rigidBodiesList
    ∧ (RapierPhysics.addRigidBody exampleFreshState 5 exampleOpts).2.world.collidersList =
        { handle := exampleFreshState.world.nextId + 1, desc := exampleOpts.collider,
          parent := exampleFreshState.world.nextId } ::
          exampleFreshState.world.collidersList
    ∧ (RapierPhysics.addRigidBody exampleFreshState 5 exampleOpts).2.bodies =
        (RapierPhysics.addRigidBody exampleFreshState 5 exampleOpts).1 ::
          exampleFreshState.bodies
    ∧ (RapierPhysics.addRigidBody exampleFreshState 5 exampleOpts).1 =
        { rigidBody := exampleFreshState.world.nextId,
          collider := exampleFreshState.world.nextId + 1, gameObject := 5 } :=
  addRigidBody_creates_registers_returns exampleFreshState 5 exampleOpts (by decide)

/-- Claim C2: whenever some registry entry's game object is
reference-equal to `g`, `destroy g` locates the entry found by the linear
`find?` scan comparing game objects, removes that entry's rigid body from
the world, and removes exactly that one entry from the registry. -/
theorem destroy_found_removes_entry (s : RapierState) (g : Nat) (b : TRidgiBodyObject)
    (hfind : s.bodies.find? (fun x => x.gameObject == g) = some b) :
    b.gameObject = g
    ∧ (RapierPhysics.destroy s g).world = s.world.removeRigidBody b.rigidBody
    ∧ (RapierPhysics.destroy s g).bodies = removeFirstByGameObject s.bodies g
    ∧ (RapierPhysics.destroy s g).bodies.length + 1 = s.bodies.length := by
  have h1 := destroy_eq_of_find?_some hfind
  obtain ⟨l₁, l₂, hdec, hrem, -⟩ := removeFirstByGameObject_decomp hfind
  refine ⟨gameObject_eq_of_find? hfind, by rw [h1], by rw [h1], ?_⟩
  rw [h1]
  show (removeFirstByGameObject s.bodies g).length + 1 = s.bodies.length
  rw [hrem, hdec]
  simp only [List.length_append, List.length_cons]
  omega

/-- Concrete instance of the theorem above, destroying the one registered
game object. -/
theorem destroy_found_removes_entry_witness :
    (⟨0, 1, 5⟩ : TRidgiBodyObject).gameObject = 5
    ∧ (RapierPhysics.destroy exampleRegisteredState 5).world =
        exampleRegisteredState.world.removeRigidBody
          (⟨0, 1, 5⟩ : TRidgiBodyObject).rigidBody
    ∧ (RapierPhysics.destroy exampleRegisteredState 5).bodies =
        removeFirstByGameObject exampleRegisteredState.bodies 5
    ∧ (RapierPhysics.destroy exampleRegisteredState 5).bodies.length + 1 =
        exampleRegisteredState.bodies.length :=
  destroy_found_removes_entry exampleRegisteredState 5 ⟨0, 1, 5⟩ (by decide)

/-- Claim C3: when no registry entry's game object is reference-equal to
`g`, `destroy g` is a no-op: the whole factory state (registry, world,
debug flag, destroyed-object log — so `g` itself too) is unchanged. -/
theorem destroy_no_match_noop (s : RapierState) (g : Nat)
    (h : ∀ b ∈ s.bodies, b.gameObject ≠ g) :
    RapierPhysics.destroy s g = s := by
  apply destroy_eq_of_find?_none
  apply List.find?_eq_none.mpr
  intro x hx
  simpa using h x hx

/-- Concrete instance of the theorem above, destroying an unregistered
game object. -/
theorem destroy_no_match_noop_witness :
    RapierPhysics.destroy exampleRegisteredState 6 = exampleRegisteredState :=
  destroy_no_match_noop exampleRegisteredState 6 (by decide)

/-- Claim C4: every invocation of the per-frame `update` callback appends
exactly one entry to the world's step log — one `world.step` call per
invocation — whatever the debug flag and whether or not an event queue
exists (the appended entry names the queue exactly when one exists). -/
theorem update_steps_world_exactly_once (settings : Option DebugRenderSettings)
    (buffers : DebugRenderBuffers) (s : RapierState) :
    (update settings buffers s).state.world.stepLog =
      s.world.stepLog ++ [s.eventQueue.map EventQueue.id] := by
  cases hq : s.eventQueue <;> simp [update, hq, World.step]

/-- Claim C5: with the debug flag set, `update` draws one segment per
consecutive group of six floats of the flat vertex buffer; segment `k`
takes its endpoints from vertex floats `6k..6k+5` remapped by the static
linear maps `debugRemapX`/`debugRemapY` (scale factors plus the shear
factor), its colour channels from colour floats `12k..12k+2` — the source's
`colorIndex = i * 2` — scaled by 255 and packed by `GetColor`, and its
alpha from colour float `12k+3`. -/
theorem update_debug_draws_remapped_segments (settings : Option DebugRenderSettings)
    (vertices colors : List Int) (s : RapierState) (hdbg : s.debugEnabled = true) (k : Nat)
    (hk : k < (vertices.length + 5) / 6) :
    (update settings ⟨vertices, colors⟩ s).drawn.length = (vertices.length + 5) / 6
    ∧ (update settings ⟨vertices, colors⟩ s).drawn[k]? = some
        { width := 2,
          color := GetColor (colors.getD (6 * k * 2) 0 * 255)
            (colors.getD (6 * k * 2 + 1) 0 * 255) (colors.getD (6 * k * 2 + 2) 0 * 255),
          alpha := colors.getD (6 * k * 2 + 3) 0,
          x1 := debugRemapX settings ⟨vertices.getD (6 * k) 0, vertices.getD (6 * k + 1) 0,
            vertices.getD (6 * k + 2) 0⟩,
          y1 := debugRemapY settings ⟨vertices.getD (6 * k) 0, vertices.getD (6 * k + 1) 0,
            vertices.getD (6 * k + 2) 0⟩,
          x2 := debugRemapX settings ⟨vertices.getD (6 * k + 3) 0, vertices.getD (6 * k + 4) 0,
            vertices.getD (6 * k + 5) 0⟩,
          y2 := debugRemapY settings ⟨vertices.getD (6 * k + 3) 0, vertices.getD (6 * k + 4) 0,
            vertices.getD (6 * k + 5) 0⟩ } := by
  cases hq : s.eventQueue <;>
    simp [update, hq, hdbg, drawDebug, segmentAt, debugRemapX, debugRemapY,
      List.getElem?_map, List.getElem?_range, hk]

/-- Concrete instance of the theorem above, at a one-segment buffer with
every remap factor supplied. -/
theorem update_debug_draws_remapped_segments_witness :
    (update exampleSettings ⟨exampleVertices, exampleColors⟩ exampleDebugState).drawn.length =
        (exampleVertices.length + 5) / 6
    ∧ (update exampleSettings ⟨exampleVertices, exampleColors⟩ exampleDebugState).drawn[0]? =
        some
        { width := 2,
          color := GetColor (exampleColors.getD (6 * 0 * 2) 0 * 255)
            (exampleColors.getD (6 * 0 * 2 + 1) 0 * 255)
            (exampleColors.getD (6 * 0 * 2 + 2) 0 * 255),
          alpha := exampleColors.getD (6 * 0 * 2 + 3) 0,
          x1 := debugRemapX exampleSettings ⟨exampleVertices.getD (6 * 0) 0,
            exampleVertices.getD (6 * 0 + 1) 0, exampleVertices.getD (6 * 0 + 2) 0⟩,
          y1 := debugRemapY exampleSettings ⟨exampleVertices.getD (6 * 0) 0,
            exampleVertices.getD (6 * 0 + 1) 0, exampleVertices.getD (6 * 0 + 2) 0⟩,
          x2 := debugRemapX exampleSettings ⟨exampleVertices.getD (6 * 0 + 3) 0,
            exampleVertices.getD (6 * 0 + 4) 0, exampleVertices.getD (6 * 0 + 5) 0⟩,
          y2 := debugRemapY exampleSettings ⟨exampleVertices.getD (6 * 0 + 3) 0,
            exampleVertices.getD (6 * 0 + 4) 0, exampleVertices.getD (6 * 0 + 5) 0⟩ } :=
  update_debug_draws_remapped_segments exampleSettings exampleVertices exampleColors
    exampleDebugState rfl 0 (by decide)

/-- Claim C6: `createEventQueue` installs the returned queue in the
factory; while it is installed every `update` steps the world with that
queue and drains its collision events (and keeps the queue installed);
after the returned release operation runs, the queue is freed, the slot is
cleared, and every subsequent `update` steps the world without a queue and
drains nothing. -/
theorem createEventQueue_step_drain_free (s : RapierState)
    (settings : Option DebugRenderSettings) (buffers : DebugRenderBuffers) :
    ((RapierPhysics.createEventQueue s).2).eventQueue =
        some (RapierPhysics.createEventQueue s).1
    ∧ (update settings buffers (RapierPhysics.createEventQueue s).2).state.world.stepLog =
        (RapierPhysics.createEventQueue s).2.world.stepLog ++
          [some (RapierPhysics.createEventQueue s).1.id]
    ∧ (update settings buffers (RapierPhysics.createEventQueue s).2).drained =
        some (RapierPhysics.createEventQueue s).1.id
    ∧ (update settings buffers (RapierPhysics.createEventQueue s).2).state.eventQueue =
        some (RapierPhysics.createEventQueue s).1
    ∧ (RapierPhysics.eventQueueFree (RapierPhysics.createEventQueue s).2).eventQueue = none
    ∧ (RapierPhysics.createEventQueue s).1.id ∈
        (RapierPhysics.eventQueueFree (RapierPhysics.createEventQueue s).2).freedQueues
    ∧ (update settings buffers
          (RapierPhysics.eventQueueFree
            (RapierPhysics.createEventQueue s).2)).state.world.stepLog =
        (RapierPhysics.eventQueueFree
          (RapierPhysics.createEventQueue s).2).world.stepLog ++ [none]
    ∧ (update settings buffers
          (RapierPhysics.eventQueueFree (RapierPhysics.createEventQueue s).2)).drained =
        none := by
  simp [RapierPhysics.createEventQueue, RapierPhysics.eventQueueFree, update, World.step]

/-- Claim C7 (counterexample): the triple (world, registry, debug flag) is
not the whole mutable state. `createEventQueue` leaves all three
components of a fresh factory unchanged, yet the next `update` behaves
differently (it steps the world with a queue), so the factory carries a
fourth mutable component — the event-queue slot. -/
theorem factory_state_has_queue_component :
    ((RapierPhysics.createEventQueue (createRapierPhysics ⟨0, 0, 0⟩)).2.world =
        (createRapierPhysics ⟨0, 0, 0⟩).world
      ∧ (RapierPhysics.createEventQueue (createRapierPhysics ⟨0, 0, 0⟩)).2.bodies =
        (createRapierPhysics ⟨0, 0, 0⟩).bodies
      ∧ (RapierPhysics.createEventQueue (createRapierPhysics ⟨0, 0, 0⟩)).2.debugEnabled =
        (createRapierPhysics ⟨0, 0, 0⟩).debugEnabled)
    ∧ (update none ⟨[], []⟩
          (RapierPhysics.createEventQueue
            (createRapierPhysics ⟨0, 0, 0⟩)).2).state.world.stepLog ≠
        (update none ⟨[], []⟩ (createRapierPhysics ⟨0, 0, 0⟩)).state.world.stepLog := by
  decide

/-- Claim C7 (amended): the factory's mutable state is the world handle,
the flat triple registry, the boolean debug flag AND the optional
event-queue slot; every public operation preserves the registry's shape —
it only ever prepends one whole triple (`addRigidBody`) or removes one
whole triple (`destroy`), and the other operations leave it untouched, so
it never holds partial entries. -/
theorem factory_registry_whole_triples (s : RapierState) (g : Nat) (opts : TRapierOptions)
    (enable : Bool) (settings : Option DebugRenderSettings) (buffers : DebugRenderBuffers) :
    (RapierPhysics.addRigidBody s g opts).2.bodies =
        (RapierPhysics.addRigidBody s g opts).1 :: s.bodies
    ∧ ((RapierPhysics.destroy s g).bodies = s.bodies ∨
        ∃ l₁ b l₂, s.bodies = l₁ ++ b :: l₂ ∧ (RapierPhysics.destroy s g).bodies = l₁ ++ l₂)
    ∧ (RapierPhysics.debugger s enable).bodies = s.bodies
    ∧ (RapierPhysics.createEventQueue s).2.bodies = s.bodies
    ∧ (RapierPhysics.eventQueueFree s).bodies = s.bodies
    ∧ (RapierPhysics.free s).bodies = s.bodies
    ∧ (update settings buffers s).state.bodies = s.bodies
    ∧ RapierPhysics.getWorld s = s.world := by
  refine ⟨by simp [RapierPhysics.addRigidBody], ?_, rfl, rfl, ?_, rfl, ?_, rfl⟩
  · cases hf : s.bodies.find? (fun x => x.gameObject == g) with
    | none => exact Or.inl (by rw [destroy_eq_of_find?_none hf])
    | some b =>
      right
      obtain ⟨l₁, l₂, hdec, hrem, -⟩ := removeFirstByGameObject_decomp hf
      exact ⟨l₁, b, l₂, hdec, by rw [destroy_eq_of_find?_some hf]; exact hrem⟩
  · cases hq : s.eventQueue <;> simp [RapierPhysics.eventQueueFree, hq]
  · cases hq : s.eventQueue <;> simp [update, hq]

/-- Claim C8 (counterexample): the two declaration revisions concatenated
in the package typings do not declare equivalent option shapes for
`addRigidBody`: the first revision's `TRapierOptions` differs from the
second revision's. -/
theorem typings_options_revisions_differ :
    dts1TRapierOptionsFields ≠ dts2TRapierOptionsFields := by decide

/-- Claim C8 (amended): across the implementation and both declaration
revisions the result types of every public operation agree (and the
`TPhysicsObject` shapes agree), but the parameter types are not
equivalent: the two typings revisions declare different `TRapierOptions`
shapes, and the `debugRenderSettings` parameter of `createRapierPhysics`
differs between the implementation (which has `xShear`), the first
revision (which lacks it) and the second revision (which has no such
parameter). -/
theorem typings_results_equiv_options_differ :
    srcTPhysicsObjectFields = dts1TPhysicsObjectFields
    ∧ dts1TPhysicsObjectFields = dts2TPhysicsObjectFields
    ∧ srcRapierPhysicsResults = dts1RapierPhysicsResults
    ∧ dts1RapierPhysicsResults = dts2RapierPhysicsResults
    ∧ srcTRapierOptionsFields = dts1TRapierOptionsFields
    ∧ dts1TRapierOptionsFields ≠ dts2TRapierOptionsFields
    ∧ srcDebugRenderSettingsParam ≠ dts1DebugRenderSettingsParam
    ∧ dts1DebugRenderSettingsParam ≠ dts2DebugRenderSettingsParam := by decide

/-- Claim C9: the descriptor argument is selected by the truthiness chain
`rigidBodyType || rigidBodyDesc || Dynamic`; `Dynamic` is numerically 0
and hence falsy, so supplying both `rigidBodyType = Dynamic` and a
`rigidBodyDesc` selects the descriptor and ignores the requested dynamic
type; and for every numeric type outside the four known enum values the
switch's default branch creates a dynamic descriptor. -/
theorem rigidBodyDesc_truthiness_selection (d : RigidBodyDesc) (t : Nat) :
    RigidBodyType.Dynamic = 0
    ∧ jsRigidBodyDescArg (some RigidBodyType.Dynamic) (some d) = RigidBodyDescOrType.desc d
    ∧ (t ≠ RigidBodyType.Dynamic → t ≠ RigidBodyType.Fixed →
        t ≠ RigidBodyType.KinematicPositionBased → t ≠ RigidBodyType.KinematicVelocityBased →
        resolveRigidBodyDesc (RigidBodyDescOrType.num t) = RigidBodyDesc.dynamic) := by
  refine ⟨rfl, by simp [jsRigidBodyDescArg, RigidBodyType.Dynamic], ?_⟩
  intro h0 h1 h2 h3
  have h0' : t ≠ 0 := h0
  have h1' : t ≠ 1 := h1
  have h2' : t ≠ 2 := h2
  have h3' : t ≠ 3 := h3
  simp [resolveRigidBodyDesc, RigidBodyType.Dynamic, RigidBodyType.Fixed,
    RigidBodyType.KinematicPositionBased, RigidBodyType.KinematicVelocityBased,
    h0', h1', h2', h3']

/-- Concrete instance of the theorem above, with a customised fixed-body
descriptor and the out-of-range numeric type 7. -/
theorem rigidBodyDesc_truthiness_selection_witness :
    RigidBodyType.Dynamic = 0
    ∧ jsRigidBodyDescArg (some RigidBodyType.Dynamic) (some exampleDesc) =
        RigidBodyDescOrType.desc exampleDesc
    ∧ resolveRigidBodyDesc (RigidBodyDescOrType.num 7) = RigidBodyDesc.dynamic := by
  have h := rigidBodyDesc_truthiness_selection exampleDesc 7
  exact ⟨h.1, h.2.1, h.2.2 (by decide) (by decide) (by decide) (by decide)⟩

/-- Claim C10: `addRigidBody` prepends each new triple (so the registry is
ordered most-recent first), and when the same game object occurs several
times a single `destroy` removes exactly the first — most recently
registered — matching entry: the match count drops by exactly one, only
that entry's rigid body leaves the world, and every other rigid body is
still found in the world afterwards. -/
theorem registry_prepend_destroy_most_recent (s : RapierState) (g : Nat)
    (opts : TRapierOptions) (b : TRidgiBodyObject) :
    (RapierPhysics.addRigidBody s g opts).2.bodies =
        (RapierPhysics.addRigidBody s g opts).1 :: s.bodies
    ∧ (s.bodies.find? (fun x => x.gameObject == g) = some b →
        (RapierPhysics.destroy s g).bodies = removeFirstByGameObject s.bodies g
        ∧ (RapierPhysics.destroy s g).bodies.countP (fun x => x.gameObject == g) + 1 =
            s.bodies.countP (fun x => x.gameObject == g)
        ∧ (RapierPhysics.destroy s g).world = s.world.removeRigidBody b.rigidBody
        ∧ ∀ h, h ≠ b.rigidBody →
            ((RapierPhysics.destroy s g).world).getBody h = s.world.getBody h) := by
  constructor
  · simp [RapierPhysics.addRigidBody]
  · intro hf
    have hd := destroy_eq_of_find?_some hf
    refine ⟨by rw [hd], ?_, by rw [hd], ?_⟩
    · rw [hd]
      exact removeFirstByGameObject_countP hf
    · intro h hne
      rw [hd]
      exact getBody_removeRigidBody_of_ne hne

/-- Concrete instance of the theorem above: game object 7 is registered
twice; `destroy` removes the most recently registered entry (handles 2/3)
and keeps the older body (handle 0) in the world. -/
theorem registry_prepend_destroy_most_recent_witness :
    (RapierPhysics.destroy exampleDupState 7).bodies =
        removeFirstByGameObject exampleDupState.bodies 7
    ∧ (RapierPhysics.destroy exampleDupState 7).bodies.countP
          (fun x => x.gameObject == 7) + 1 =
        exampleDupState.bodies.countP (fun x => x.gameObject == 7)
    ∧ (RapierPhysics.destroy exampleDupState 7).world =
        exampleDupState.world.removeRigidBody (⟨2, 3, 7⟩ : TRidgiBodyObject).rigidBody
    ∧ ((RapierPhysics.destroy exampleDupState 7).world).getBody 0 =
        exampleDupState.world.getBody 0 := by
  have h := (registry_prepend_destroy_most_recent exampleDupState 7
    { collider := 0 } ⟨2, 3, 7⟩).2 (by decide)
  exact ⟨h.1, h.2.1, h.2.2.1, h.2.2.2 0 (by decide)⟩
